import Mathlib

/-!
Verification development for the asset rebalancing program (script.py).

The program's dictionaries are embedded as association lists in insertion
order, Python floats as rationals, and Python exceptions (ValueError and
ZeroDivisionError) as an explicit error type.  Every definition below is a
direct translation of the corresponding function of script.py; the only
definitions written from the specification's words rather than from the
source are candidatos_spec, auto_financiado_spec and patrimonio_alvo_spec,
used to compare the specified optimizer with the implemented one.
-/

/-- A portfolio: association list from asset name to rational amount,
mirroring a Python dict in insertion order. -/
abbrev Carteira := List (String × ℚ)

/-- Sum of the values of a portfolio, as Python sum over dict values. -/
def somaValores : Carteira → ℚ
  | [] => 0
  | p :: resto => p.2 + somaValores resto

/-- Dictionary lookup with default 0; the program only indexes keys that
are present, which the validations guarantee. -/
def valorDe : Carteira → String → ℚ
  | [], _ => 0
  | p :: resto, k => if p.1 = k then p.2 else valorDe resto k

/-- Keys of a portfolio, in insertion order. -/
def chaves (m : Carteira) : List String := m.map Prod.fst

/-- Containment of a list of keys in the key set of a portfolio. -/
def contemTodas : List String → Carteira → Bool
  | [], _ => true
  | k :: resto, m => if k ∈ chaves m then contemTodas resto m else false

/-- Key-set equality, as Python set(a.keys()) == set(b.keys()):
mutual containment of the key lists. -/
def mesmasChaves (ativos alvo : Carteira) : Bool :=
  contemTodas (chaves ativos) alvo && contemTodas (chaves alvo) ativos

/-- Translation of validar_entradas (script.py lines 3-27): true when no
ValueError is raised.  The three checks are performed in source order:
emptiness, key-set equality, percentage sum within 0.01 of 100. -/
def validar_entradas (ativos alvo : Carteira) : Bool :=
  if ativos = [] ∨ alvo = [] then false
  else if mesmasChaves ativos alvo = false then false
  else if |somaValores alvo - 100| > 1/100 then false
  else true

/-- Translation of calcular_percentuais_atuais (script.py lines 30-46):
each share is value/total*100, guarded to 0 when the total is not positive. -/
def calcular_percentuais_atuais (ativos : Carteira) : Carteira :=
  ativos.map (fun p =>
    (p.1, if somaValores ativos > 0 then p.2 / somaValores ativos * 100 else 0))

/-- Combined current percentage share of the fixed assets, as computed at
script.py line 93: guarded to 0 when the total is not positive. -/
def percentualAtualFixos (ativos : Carteira) (fixos : List String) : ℚ :=
  if somaValores ativos > 0 then
    (fixos.map (fun a => valorDe ativos a)).sum / somaValores ativos * 100
  else 0

/-- Structured form of the error messages produced by validar_ativos_fixos. -/
inductive MsgFixos where
  | naoEncontrado (ativo : String)
  | semAlvo (ativo : String)
  | incompatFixos (atual alvo : ℚ)
  | incompatVariaveis (precisa disponivel : ℚ)
deriving DecidableEq

/-- Existence loop of validar_ativos_fixos (script.py lines 83-87): the
first fixed asset missing from the current values, then from the targets. -/
def checarExistencia (ativos alvo : Carteira) : List String → Option MsgFixos
  | [] => none
  | a :: resto =>
    if a ∈ chaves ativos then
      if a ∈ chaves alvo then checarExistencia ativos alvo resto
      else some (MsgFixos.semAlvo a)
    else some (MsgFixos.naoEncontrado a)

/-- Translation of validar_ativos_fixos (script.py lines 67-114), returning
the triple (is_valid, error_message, patrimonio_disponivel_percentual). -/
def validar_ativos_fixos (ativos : Carteira) (fixos : List String) (alvo : Carteira) :
    Bool × Option MsgFixos × ℚ :=
  if fixos = [] then (true, none, 100)
  else
    match checarExistencia ativos alvo fixos with
    | some m => (false, some m, 0)
    | none =>
      let percFixos := percentualAtualFixos ativos fixos
      let percAlvoFixos := (fixos.map (fun a => valorDe alvo a)).sum
      if |percFixos - percAlvoFixos| > 1/100 then
        (false, some (MsgFixos.incompatFixos percFixos percAlvoFixos), 0)
      else
        let disponivel := 100 - percAlvoFixos
        let percAlvoVariaveis :=
          (((chaves ativos).filter (fun a => decide (¬ a ∈ fixos))).map
            (fun a => valorDe alvo a)).sum
        if |percAlvoVariaveis - disponivel| > 1/100 then
          (false, some (MsgFixos.incompatVariaveis percAlvoVariaveis disponivel), 0)
        else (true, none, disponivel)

/-- Per-asset equity candidate valor/(perc_alvo/100), the expression at
script.py lines 714 and 729. -/
def cnd (alvo : Carteira) (p : String × ℚ) : ℚ := p.2 / (valorDe alvo p.1 / 100)

/-- Fixed-asset loop of _calcular_patrimonio_alvo_minimo (script.py lines
709-715).  The accumulator is the evolving patrimonio_alvo; none models the
ZeroDivisionError raised when a fixed asset has target percentage 0. -/
def loopFixos (alvo : Carteira) (fixos : List String) : ℚ → Carteira → Option ℚ
  | e, [] => some e
  | e, p :: resto =>
    if p.1 ∈ fixos then
      if valorDe alvo p.1 / 100 = 0 then none
      else loopFixos alvo fixos (max e (cnd alvo p)) resto
    else loopFixos alvo fixos e resto

/-- Variable-asset loop of _calcular_patrimonio_alvo_minimo (script.py
lines 722-730).  Python first divides by the evolving patrimonio_alvo
(raising when it is 0), compares the current share against the target, and
only then divides by the target fraction (raising when it is 0). -/
def loopVariavel (alvo : Carteira) (fixos : List String) : ℚ → Carteira → Option ℚ
  | e, [] => some e
  | e, p :: resto =>
    if p.1 ∈ fixos then loopVariavel alvo fixos e resto
    else if e = 0 then none
    else if p.2 / e * 100 > valorDe alvo p.1 then
      if valorDe alvo p.1 / 100 = 0 then none
      else loopVariavel alvo fixos (max e (cnd alvo p)) resto
    else loopVariavel alvo fixos e resto

/-- Translation of _calcular_patrimonio_alvo_minimo (script.py lines
702-732).  none models an uncaught ZeroDivisionError. -/
def calcular_patrimonio_alvo_minimo (ativos alvo : Carteira) (fixos : List String) :
    Option ℚ :=
  match loopFixos alvo fixos 0 ativos with
  | none => none
  | some e1 =>
    if e1 = 0 then loopVariavel alvo fixos (somaValores ativos) ativos
    else some e1

/-- Step 2 of the optimized rebalancing (script.py lines 823-829): fixed
assets keep their current value, the others get perc/100 times the target
equity. -/
def calcular_valores_alvo_otimizado (ativos alvo : Carteira) (fixos : List String)
    (e : ℚ) : Carteira :=
  alvo.map (fun q => if q.1 ∈ fixos then (q.1, valorDe ativos q.1) else (q.1, q.2 / 100 * e))

/-- Signed action for one asset (script.py lines 836-852): 0 for fixed
assets, target value minus current value otherwise. -/
def acaoDe (valores : Carteira) (fixos : List String) (p : String × ℚ) : ℚ :=
  if p.1 ∈ fixos then 0 else valorDe valores p.1 - p.2

/-- The acoes_por_ativo dictionary built at script.py lines 832-852. -/
def calcular_acoes (ativos valores : Carteira) (fixos : List String) : Carteira :=
  ativos.map (fun p => (p.1, acaoDe valores fixos p))

/-- total_aportes_internos accumulated at script.py lines 841-845. -/
def totalAportesInternos (ativos valores : Carteira) (fixos : List String) : ℚ :=
  (ativos.map (fun p => max 0 (acaoDe valores fixos p))).sum

/-- total_vendas accumulated at script.py lines 846-850. -/
def totalVendasInternas (ativos valores : Carteira) (fixos : List String) : ℚ :=
  (ativos.map (fun p => max 0 (-acaoDe valores fixos p))).sum

/-- aporte_necessario = total_aportes_internos - total_vendas
(script.py line 855), as a function of the chosen target equity. -/
def aporteNecessarioDe (ativos alvo : Carteira) (fixos : List String) (e : ℚ) : ℚ :=
  totalAportesInternos ativos (calcular_valores_alvo_otimizado ativos alvo fixos e) fixos
    - totalVendasInternas ativos (calcular_valores_alvo_otimizado ativos alvo fixos e) fixos

/-- percentuais_finais (script.py lines 867 and 874-876): valor/alvo*100
for every asset; Python raises ZeroDivisionError when the target equity
is 0. -/
def percentuaisFinaisDe : Carteira → ℚ → Option Carteira
  | [], _ => some []
  | p :: resto, e =>
    if e = 0 then none
    else
      match percentuaisFinaisDe resto e with
      | none => none
      | some r => some ((p.1, p.2 / e * 100) :: r)

/-- The percentuais_finais dictionary in its successful form: for every
asset, final value divided by the target equity, times 100. -/
def percentuaisFinaisCalculados (ativos alvo : Carteira) (fixos : List String) (e : ℚ) :
    Carteira :=
  (calcular_valores_alvo_otimizado ativos alvo fixos e).map (fun p => (p.1, p.2 / e * 100))

/-- Structured form of motivo_inviabilidade. -/
inductive Motivo where
  | fixosIncompativeis (m : MsgFixos)
  | aporteExcede (necessario disponivel : ℚ)
deriving DecidableEq

/-- Result dictionary of calcular_rebalanceamento_otimizado_silencioso. -/
structure Resultado where
  viavel : Bool
  motivo : Option Motivo
  patrimonio_atual : ℚ
  patrimonio_alvo : ℚ
  aporte_necessario : ℚ
  acoes_por_ativo : Carteira
  valores_finais : Carteira
  percentuais_atuais : Carteira
  percentuais_finais : Carteira
  total_vendas : ℚ
  total_aportes_internos : ℚ
deriving DecidableEq

/-- Uncaught Python exceptions of the silent optimized rebalancing:
ValueError from validar_entradas, or ZeroDivisionError. -/
inductive Erro where
  | validacao
  | divisaoPorZero
deriving DecidableEq

/-- Early return of script.py lines 806-818 when the fixed assets are
incompatible: an infeasible result value with empty diagnostic fields. -/
def resultadoFixosInvalidos (ativos : Carteira) (fixos : List String) (alvo : Carteira) :
    Resultado :=
  { viavel := false
    motivo := ((validar_ativos_fixos ativos fixos alvo).2.1).map Motivo.fixosIncompativeis
    patrimonio_atual := somaValores ativos
    patrimonio_alvo := 0
    aporte_necessario := 0
    acoes_por_ativo := []
    valores_finais := []
    percentuais_atuais := []
    percentuais_finais := []
    total_vendas := 0
    total_aportes_internos := 0 }

/-- Early return of script.py lines 858-870 when the required contribution
exceeds the available one: all computed fields are still populated. -/
def resultadoInviavel (ativos alvo : Carteira) (fixos : List String) (e : ℚ)
    (pf : Carteira) (cap : ℚ) : Resultado :=
  { viavel := false
    motivo := some (Motivo.aporteExcede (aporteNecessarioDe ativos alvo fixos e) cap)
    patrimonio_atual := somaValores ativos
    patrimonio_alvo := e
    aporte_necessario := aporteNecessarioDe ativos alvo fixos e
    acoes_por_ativo :=
      calcular_acoes ativos (calcular_valores_alvo_otimizado ativos alvo fixos e) fixos
    valores_finais := calcular_valores_alvo_otimizado ativos alvo fixos e
    percentuais_atuais := calcular_percentuais_atuais ativos
    percentuais_finais := pf
    total_vendas :=
      totalVendasInternas ativos (calcular_valores_alvo_otimizado ativos alvo fixos e) fixos
    total_aportes_internos :=
      totalAportesInternos ativos (calcular_valores_alvo_otimizado ativos alvo fixos e) fixos }

/-- Final return of script.py lines 878-890: a viable plan, with the
required contribution clamped at 0. -/
def resultadoViavel (ativos alvo : Carteira) (fixos : List String) (e : ℚ)
    (pf : Carteira) : Resultado :=
  { viavel := true
    motivo := none
    patrimonio_atual := somaValores ativos
    patrimonio_alvo := e
    aporte_necessario := max 0 (aporteNecessarioDe ativos alvo fixos e)
    acoes_por_ativo :=
      calcular_acoes ativos (calcular_valores_alvo_otimizado ativos alvo fixos e) fixos
    valores_finais := calcular_valores_alvo_otimizado ativos alvo fixos e
    percentuais_atuais := calcular_percentuais_atuais ativos
    percentuais_finais := pf
    total_vendas :=
      totalVendasInternas ativos (calcular_valores_alvo_otimizado ativos alvo fixos e) fixos
    total_aportes_internos :=
      totalAportesInternos ativos (calcular_valores_alvo_otimizado ativos alvo fixos e) fixos }

/-- Translation of calcular_rebalanceamento_otimizado_silencioso (script.py
lines 782-890).  The contribution cap is an explicit option: none models
the POSITIVE_INFINITY default.  An error value models an uncaught Python
exception. -/
def calcular_rebalanceamento_otimizado_silencioso (ativos alvo : Carteira)
    (valor_aporte_disponivel : Option ℚ) (ativos_fixos : List String) :
    Except Erro Resultado :=
  if validar_entradas ativos alvo = false then .error Erro.validacao
  else if ativos_fixos ≠ [] ∧ (validar_ativos_fixos ativos ativos_fixos alvo).1 = false then
    .ok (resultadoFixosInvalidos ativos ativos_fixos alvo)
  else
    match calcular_patrimonio_alvo_minimo ativos alvo ativos_fixos with
    | none => .error Erro.divisaoPorZero
    | some e =>
      match percentuaisFinaisDe (calcular_valores_alvo_otimizado ativos alvo ativos_fixos e) e with
      | none => .error Erro.divisaoPorZero
      | some pf =>
        match valor_aporte_disponivel with
        | some cap =>
          if aporteNecessarioDe ativos alvo ativos_fixos e > cap then
            .ok (resultadoInviavel ativos alvo ativos_fixos e pf cap)
          else .ok (resultadoViavel ativos alvo ativos_fixos e pf)
        | none => .ok (resultadoViavel ativos alvo ativos_fixos e pf)

/-- Raw candidate list of the specification (section 4.3): one candidate
per asset, current value divided by target fraction.  This definition and
the two below follow the specification's words, for comparison with the
implemented optimizer. -/
def candidatos_spec (ativos alvo : Carteira) : List ℚ :=
  ativos.map (fun p => cnd alvo p)

/-- Self-funding check of the specification: at equity e, the sells cover
the buys. -/
def auto_financiado_spec (ativos alvo : Carteira) (e : ℚ) : Bool :=
  decide ((ativos.map (fun p => max 0 (valorDe alvo p.1 / 100 * e - p.2))).sum
    ≤ (ativos.map (fun p => max 0 (p.2 - valorDe alvo p.1 / 100 * e))).sum)

/-- Smallest element of a list of rationals, if any. -/
def menorDe : List ℚ → Option ℚ
  | [] => none
  | x :: xs =>
    match menorDe xs with
    | none => some x
    | some m => some (min x m)

/-- Target equity chosen by the specification's algorithm (section 4.3):
the smallest self-funding member of the candidates plus the current total,
else the smallest raw candidate. -/
def patrimonio_alvo_spec (ativos alvo : Carteira) : ℚ :=
  match menorDe ((candidatos_spec ativos alvo ++ [somaValores ativos]).filter
      (fun e => auto_financiado_spec ativos alvo e)) with
  | some m => m
  | none =>
    match menorDe (candidatos_spec ativos alvo) with
    | some m => m
    | none => 0

/-! Helper lemmas. -/

theorem contemTodas_iff (l : List String) (m : Carteira) :
    contemTodas l m = true ↔ ∀ k ∈ l, k ∈ chaves m := by
  induction l with
  | nil => simp [contemTodas]
  | cons k resto ih =>
    by_cases hk : k ∈ chaves m
    · simp [contemTodas, hk, ih]
    · simp [contemTodas, hk]

theorem mesmasChaves_iff (ativos alvo : Carteira) :
    mesmasChaves ativos alvo = true ↔
      (chaves ativos).toFinset = (chaves alvo).toFinset := by
  rw [mesmasChaves, Bool.and_eq_true, contemTodas_iff, contemTodas_iff]
  constructor
  · rintro ⟨h1, h2⟩
    apply Finset.Subset.antisymm
    · intro x hx
      rw [List.mem_toFinset] at hx ⊢
      exact h1 x hx
    · intro x hx
      rw [List.mem_toFinset] at hx ⊢
      exact h2 x hx
  · intro h
    constructor
    · intro k hk
      have := Finset.ext_iff.mp h k
      rw [List.mem_toFinset, List.mem_toFinset] at this
      exact this.mp hk
    · intro k hk
      have := Finset.ext_iff.mp h k
      rw [List.mem_toFinset, List.mem_toFinset] at this
      exact this.mpr hk

theorem valorDe_map_snd (f : ℚ → ℚ) (hf : f 0 = 0) (l : Carteira) (k : String) :
    valorDe (l.map (fun q => (q.1, f q.2))) k = f (valorDe l k) := by
  induction l with
  | nil => simp [valorDe, hf]
  | cons q resto ih =>
    by_cases hq : q.1 = k
    · simp [valorDe, hq]
    · simp [valorDe, hq, ih]

theorem somaValores_map_frac (l : Carteira) (e : ℚ) :
    somaValores (l.map (fun q => (q.1, q.2 / 100 * e))) = somaValores l * e / 100 := by
  induction l with
  | nil => simp [somaValores]
  | cons q resto ih =>
    simp only [List.map_cons, somaValores, ih]
    ring

theorem valores_alvo_sem_fixos (ativos alvo : Carteira) (e : ℚ) :
    calcular_valores_alvo_otimizado ativos alvo [] e =
      alvo.map (fun q => (q.1, q.2 / 100 * e)) := by
  simp [calcular_valores_alvo_otimizado]

theorem percentuaisFinaisDe_eq_map (v : Carteira) (e : ℚ) (he : e ≠ 0) :
    percentuaisFinaisDe v e = some (v.map (fun p => (p.1, p.2 / e * 100))) := by
  induction v with
  | nil => simp [percentuaisFinaisDe]
  | cons p resto ih => simp [percentuaisFinaisDe, he, ih]

theorem loopFixos_sem_fixos (alvo : Carteira) (l : Carteira) (e : ℚ) :
    loopFixos alvo [] e l = some e := by
  induction l generalizing e with
  | nil => rfl
  | cons p resto ih => simp [loopFixos, ih]

theorem cnd_le_de_nao_acima (p2 e v : ℚ) (he : 0 < e) (hv : 0 < v)
    (h : ¬ v < p2 / e * 100) : p2 / (v / 100) ≤ e := by
  rw [not_lt] at h
  rw [div_mul_eq_mul_div, div_le_iff₀ he] at h
  rw [div_le_iff₀ (by positivity : (0:ℚ) < v / 100)]
  nlinarith [h]

theorem loopVariavel_char (alvo : Carteira) (fixos : List String) (l : Carteira) (e : ℚ)
    (he : 0 < e) (hl : ∀ p ∈ l, ¬ p.1 ∈ fixos → 0 < valorDe alvo p.1) :
    ∃ E, loopVariavel alvo fixos e l = some E ∧ e ≤ E ∧
      (∀ p ∈ l, ¬ p.1 ∈ fixos → cnd alvo p ≤ E) ∧
      (E = e ∨ ∃ p ∈ l, ¬ p.1 ∈ fixos ∧ E = cnd alvo p) := by
  induction l generalizing e with
  | nil => exact ⟨e, rfl, le_refl e, by simp, Or.inl rfl⟩
  | cons p resto ih =>
    by_cases hm : p.1 ∈ fixos
    · have hstep : loopVariavel alvo fixos e (p :: resto) = loopVariavel alvo fixos e resto := by
        simp only [loopVariavel]
        rw [if_pos hm]
      obtain ⟨E, hE, hle, hub, hcasos⟩ :=
        ih e he (fun q hq hq2 => hl q (List.mem_cons_of_mem p hq) hq2)
      refine ⟨E, hstep.trans hE, hle, ?_, ?_⟩
      · intro q hq hq2
        rcases List.mem_cons.mp hq with h1 | h1
        · exact absurd (h1 ▸ hm) hq2
        · exact hub q h1 hq2
      · rcases hcasos with h1 | ⟨q, hq, hq2, hq3⟩
        · exact Or.inl h1
        · exact Or.inr ⟨q, List.mem_cons_of_mem p hq, hq2, hq3⟩
    · have hv : 0 < valorDe alvo p.1 := hl p (List.mem_cons_self p resto) hm
      have hv100 : ¬ valorDe alvo p.1 / 100 = 0 := by positivity
      have hene : ¬ e = 0 := ne_of_gt he
      by_cases hgt : valorDe alvo p.1 < p.2 / e * 100
      · have hstep : loopVariavel alvo fixos e (p :: resto) =
            loopVariavel alvo fixos (max e (cnd alvo p)) resto := by
          simp only [loopVariavel]
          rw [if_neg hm, if_neg hene, if_pos hgt, if_neg hv100]
        obtain ⟨E, hE, hle, hub, hcasos⟩ :=
          ih (max e (cnd alvo p)) (lt_of_lt_of_le he (le_max_left _ _))
            (fun q hq hq2 => hl q (List.mem_cons_of_mem p hq) hq2)
        refine ⟨E, hstep.trans hE, le_trans (le_max_left _ _) hle, ?_, ?_⟩
        · intro q hq hq2
          rcases List.mem_cons.mp hq with h1 | h1
          · rw [h1]
            exact le_trans (le_max_right _ _) hle
          · exact hub q h1 hq2
        · rcases hcasos with h1 | ⟨q, hq, hq2, hq3⟩
          · rcases max_choice e (cnd alvo p) with h2 | h2
            · exact Or.inl (h1.trans h2)
            · exact Or.inr ⟨p, List.mem_cons_self p resto, hm, h1.trans h2⟩
          · exact Or.inr ⟨q, List.mem_cons_of_mem p hq, hq2, hq3⟩
      · have hstep : loopVariavel alvo fixos e (p :: resto) = loopVariavel alvo fixos e resto := by
          simp only [loopVariavel]
          rw [if_neg hm, if_neg hene, if_neg hgt]
        have hcp : cnd alvo p ≤ e := cnd_le_de_nao_acima p.2 e (valorDe alvo p.1) he hv hgt
        obtain ⟨E, hE, hle, hub, hcasos⟩ :=
          ih e he (fun q hq hq2 => hl q (List.mem_cons_of_mem p hq) hq2)
        refine ⟨E, hstep.trans hE, hle, ?_, ?_⟩
        · intro q hq hq2
          rcases List.mem_cons.mp hq with h1 | h1
          · rw [h1]
            exact le_trans hcp hle
          · exact hub q h1 hq2
        · rcases hcasos with h1 | ⟨q, hq, hq2, hq3⟩
          · exact Or.inl h1
          · exact Or.inr ⟨q, List.mem_cons_of_mem p hq, hq2, hq3⟩

theorem loopFixos_char (alvo : Carteira) (fixos : List String) (l : Carteira) (e : ℚ)
    (hl : ∀ p ∈ l, p.1 ∈ fixos → ¬ valorDe alvo p.1 / 100 = 0) :
    ∃ E, loopFixos alvo fixos e l = some E ∧ e ≤ E ∧
      (∀ p ∈ l, p.1 ∈ fixos → cnd alvo p ≤ E) ∧
      (E = e ∨ ∃ p ∈ l, p.1 ∈ fixos ∧ E = cnd alvo p) := by
  induction l generalizing e with
  | nil => exact ⟨e, rfl, le_refl e, by simp, Or.inl rfl⟩
  | cons p resto ih =>
    by_cases hm : p.1 ∈ fixos
    · have hv100 := hl p (List.mem_cons_self p resto) hm
      have hstep : loopFixos alvo fixos e (p :: resto) =
          loopFixos alvo fixos (max e (cnd alvo p)) resto := by
        simp only [loopFixos]
        rw [if_pos hm, if_neg hv100]
      obtain ⟨E, hE, hle, hub, hcasos⟩ :=
        ih (max e (cnd alvo p)) (fun q hq hq2 => hl q (List.mem_cons_of_mem p hq) hq2)
      refine ⟨E, hstep.trans hE, le_trans (le_max_left _ _) hle, ?_, ?_⟩
      · intro q hq hq2
        rcases List.mem_cons.mp hq with h1 | h1
        · rw [h1]
          exact le_trans (le_max_right _ _) hle
        · exact hub q h1 hq2
      · rcases hcasos with h1 | ⟨q, hq, hq2, hq3⟩
        · rcases max_choice e (cnd alvo p) with h2 | h2
          · exact Or.inl (h1.trans h2)
          · exact Or.inr ⟨p, List.mem_cons_self p resto, hm, h1.trans h2⟩
        · exact Or.inr ⟨q, List.mem_cons_of_mem p hq, hq2, hq3⟩
    · have hstep : loopFixos alvo fixos e (p :: resto) = loopFixos alvo fixos e resto := by
        simp only [loopFixos]
        rw [if_neg hm]
      obtain ⟨E, hE, hle, hub, hcasos⟩ :=
        ih e (fun q hq hq2 => hl q (List.mem_cons_of_mem p hq) hq2)
      refine ⟨E, hstep.trans hE, hle, ?_, ?_⟩
      · intro q hq hq2
        rcases List.mem_cons.mp hq with h1 | h1
        · exact absurd (h1 ▸ hm) (fun hc => hc hq2)
        · exact hub q h1 hq2
      · rcases hcasos with h1 | ⟨q, hq, hq2, hq3⟩
        · exact Or.inl h1
        · exact Or.inr ⟨q, List.mem_cons_of_mem p hq, hq2, hq3⟩

theorem loopVariavel_equilibrio (alvo : Carteira) (l : Carteira) (t : ℚ) (ht : 0 < t)
    (hl : ∀ p ∈ l, p.2 = valorDe alvo p.1 / 100 * t) :
    loopVariavel alvo [] t l = some t := by
  induction l with
  | nil => rfl
  | cons p resto ih =>
    have hp := hl p (List.mem_cons_self p resto)
    have htne : ¬ t = 0 := ne_of_gt ht
    have heq : p.2 / t * 100 = valorDe alvo p.1 := by
      rw [hp]
      field_simp
      ring
    have hngt : ¬ (valorDe alvo p.1 < p.2 / t * 100) := by
      rw [heq]
      exact lt_irrefl _
    have hstep : loopVariavel alvo [] t (p :: resto) = loopVariavel alvo [] t resto := by
      simp only [loopVariavel]
      rw [if_neg (List.not_mem_nil p.1), if_neg htne, if_neg hngt]
    rw [hstep]
    exact ih (fun q hq => hl q (List.mem_cons_of_mem p hq))

theorem validar_entradas_eq_true (ativos alvo : Carteira) (h1 : ¬ ativos = [])
    (h2 : ¬ alvo = []) (h3 : mesmasChaves ativos alvo = true)
    (h4 : ¬ |somaValores alvo - 100| > 1/100) :
    validar_entradas ativos alvo = true := by
  unfold validar_entradas
  rw [if_neg (by tauto), if_neg (by simp [h3]), if_neg h4]

theorem silencioso_reduz (ativos alvo : Carteira) (cap : Option ℚ) (fixos : List String)
    (e : ℚ) (hval : validar_entradas ativos alvo = true)
    (hfix : ¬ (fixos ≠ [] ∧ (validar_ativos_fixos ativos fixos alvo).1 = false))
    (hE : calcular_patrimonio_alvo_minimo ativos alvo fixos = some e)
    (hEne : ¬ e = 0) :
    calcular_rebalanceamento_otimizado_silencioso ativos alvo cap fixos =
      (match cap with
      | some c =>
        if aporteNecessarioDe ativos alvo fixos e > c then
          Except.ok (resultadoInviavel ativos alvo fixos e
            (percentuaisFinaisCalculados ativos alvo fixos e) c)
        else
          Except.ok (resultadoViavel ativos alvo fixos e
            (percentuaisFinaisCalculados ativos alvo fixos e))
      | none =>
        Except.ok (resultadoViavel ativos alvo fixos e
          (percentuaisFinaisCalculados ativos alvo fixos e))) := by
  unfold calcular_rebalanceamento_otimizado_silencioso
  rw [if_neg (by simp [hval]), if_neg hfix]
  simp only [hE, percentuaisFinaisDe_eq_map _ _ hEne, percentuaisFinaisCalculados]

theorem totais_zero (ativos valores : Carteira) (fixos : List String)
    (h : ∀ p ∈ ativos, acaoDe valores fixos p = 0) :
    totalAportesInternos ativos valores fixos = 0 ∧
    totalVendasInternas ativos valores fixos = 0 := by
  constructor
  · apply List.sum_eq_zero
    intro x hx
    rw [List.mem_map] at hx
    obtain ⟨p, hp, rfl⟩ := hx
    rw [h p hp]
    simp
  · apply List.sum_eq_zero
    intro x hx
    rw [List.mem_map] at hx
    obtain ⟨p, hp, rfl⟩ := hx
    rw [h p hp]
    simp

/-! Claim theorems. -/

/-- Claim C1, counterexample.  For the valid no-fixed-assets input
current = A:10, B:10, C:50 and targets A:1, B:50, C:49, the implemented
optimizer returns target equity 1000, while the claim's candidate search
(smallest self-funding candidate) selects 20; so the claim, as stated, is
false on the code. -/
theorem claim_C1_counterexample :
    calcular_patrimonio_alvo_minimo [("A",10),("B",10),("C",50)]
        [("A",1),("B",50),("C",49)] [] = some 1000 ∧
    patrimonio_alvo_spec [("A",10),("B",10),("C",50)] [("A",1),("B",50),("C",49)] = 20 ∧
    validar_entradas [("A",10),("B",10),("C",50)] [("A",1),("B",50),("C",49)] = true ∧
    ¬ ((1000 : ℚ) = 20) := by
  refine ⟨?_, ?_, ?_, by norm_num⟩
  · simp [calcular_patrimonio_alvo_minimo, loopFixos, loopVariavel, cnd, valorDe, somaValores]
    norm_num [max_def]
  · simp [patrimonio_alvo_spec, candidatos_spec, auto_financiado_spec, menorDe, cnd, valorDe,
      somaValores, max_def, min_def]
    norm_num [max_def, min_def]
    simp [menorDe]
    norm_num [min_def]
  · simp [validar_entradas, mesmasChaves, contemTodas, chaves, somaValores]
    norm_num

/-- Claim C1, amended.  For every input with positive current total whose
target percentages are all positive and with no fixed assets, the target
equity returned by the optimizer is the maximum of the current total equity
and the per-asset candidates current/(target_pct/100); no self-funding
selection is performed. -/
theorem claim_C1_amended (ativos alvo : Carteira)
    (hpos : 0 < somaValores ativos)
    (halvo : ∀ p ∈ ativos, 0 < valorDe alvo p.1) :
    ∃ e, calcular_patrimonio_alvo_minimo ativos alvo [] = some e ∧
      somaValores ativos ≤ e ∧
      (∀ p ∈ ativos, cnd alvo p ≤ e) ∧
      (e = somaValores ativos ∨ ∃ p ∈ ativos, e = cnd alvo p) := by
  obtain ⟨E, hE, hle, hub, hcasos⟩ :=
    loopVariavel_char alvo [] ativos (somaValores ativos) hpos (fun p hp _ => halvo p hp)
  refine ⟨E, ?_, hle, fun p hp => hub p hp (List.not_mem_nil p.1), ?_⟩
  · unfold calcular_patrimonio_alvo_minimo
    simp only [loopFixos_sem_fixos, eq_self_iff_true, if_true]
    exact hE
  · rcases hcasos with h1 | ⟨p, hp, _, h2⟩
    · exact Or.inl h1
    · exact Or.inr ⟨p, hp, h2⟩

/-- Claim C1, witness for the amended theorem, at the Scenario A input. -/
theorem claim_C1_witness :
    (0 < somaValores [("A",10),("B",10),("C",50)]) ∧
    (∀ p ∈ ([("A",10),("B",10),("C",50)] : Carteira),
      0 < valorDe [("A",1),("B",50),("C",49)] p.1) ∧
    (∃ e, calcular_patrimonio_alvo_minimo [("A",10),("B",10),("C",50)]
        [("A",1),("B",50),("C",49)] [] = some e ∧
      somaValores [("A",10),("B",10),("C",50)] ≤ e ∧
      (∀ p ∈ ([("A",10),("B",10),("C",50)] : Carteira),
        cnd [("A",1),("B",50),("C",49)] p ≤ e) ∧
      (e = somaValores [("A",10),("B",10),("C",50)] ∨
        ∃ p ∈ ([("A",10),("B",10),("C",50)] : Carteira),
          e = cnd [("A",1),("B",50),("C",49)] p)) := by
  refine ⟨by norm_num [somaValores], ?_, ?_⟩
  · simp [List.forall_mem_cons, valorDe]
  · exact claim_C1_amended [("A",10),("B",10),("C",50)] [("A",1),("B",50),("C",49)]
      (by norm_num [somaValores])
      (by simp [List.forall_mem_cons, valorDe])

/-- Claim C3, counterexample.  With current = A:0, B:100, targets
A:0.01, B:99.99 and fixed set containing only A, the fixed-asset
compatibility check passes and A's target percentage is positive, yet the
optimizer returns 1000000/9999 (about 100.01) instead of the claimed
maximum over the fixed assets, which is A's candidate 0. -/
theorem claim_C3_counterexample :
    (validar_ativos_fixos [("A",0),("B",100)] ["A"] [("A",1/100),("B",9999/100)]).1 = true ∧
    0 < valorDe [("A",1/100),("B",9999/100)] ("A") ∧
    calcular_patrimonio_alvo_minimo [("A",0),("B",100)] [("A",1/100),("B",9999/100)] ["A"]
      = some (1000000/9999) ∧
    cnd [("A",1/100),("B",9999/100)] (("A"), 0) = 0 ∧
    ¬ ((1000000/9999 : ℚ) = 0) := by
  refine ⟨?_, by norm_num [valorDe], ?_, by norm_num [cnd, valorDe], by norm_num⟩
  · simp [validar_ativos_fixos, checarExistencia, chaves, percentualAtualFixos, valorDe,
      somaValores]
    norm_num [abs_of_nonneg]
  · simp [calcular_patrimonio_alvo_minimo, loopFixos, loopVariavel, cnd, valorDe, somaValores]
    norm_num [max_def]

/-- Claim C3, amended.  For every input whose fixed assets all have positive
target percentages and at least one fixed asset has positive current value,
the optimizer returns the maximum over the fixed assets of
current/(target_pct/100). -/
theorem claim_C3_amended (ativos alvo : Carteira) (fixos : List String)
    (hfixpos : ∀ p ∈ ativos, p.1 ∈ fixos → 0 < valorDe alvo p.1)
    (hex : ∃ p ∈ ativos, p.1 ∈ fixos ∧ 0 < p.2) :
    ∃ e, calcular_patrimonio_alvo_minimo ativos alvo fixos = some e ∧
      (∃ p ∈ ativos, p.1 ∈ fixos ∧ e = cnd alvo p) ∧
      (∀ p ∈ ativos, p.1 ∈ fixos → cnd alvo p ≤ e) := by
  have hl : ∀ p ∈ ativos, p.1 ∈ fixos → ¬ valorDe alvo p.1 / 100 = 0 := by
    intro p hp hf
    exact ne_of_gt (div_pos (hfixpos p hp hf) (by norm_num))
  obtain ⟨E, hE, _, hub, hcasos⟩ := loopFixos_char alvo fixos ativos 0 hl
  obtain ⟨p0, hp0, hf0, hv0⟩ := hex
  have hc0 : 0 < cnd alvo p0 := by
    unfold cnd
    exact div_pos hv0 (div_pos (hfixpos p0 hp0 hf0) (by norm_num))
  have hEpos : 0 < E := lt_of_lt_of_le hc0 (hub p0 hp0 hf0)
  have hEne : ¬ E = 0 := by
    intro h
    rw [h] at hEpos
    exact lt_irrefl 0 hEpos
  refine ⟨E, ?_, ?_, hub⟩
  · unfold calcular_patrimonio_alvo_minimo
    simp only [hE]
    rw [if_neg hEne]
  · rcases hcasos with h1 | h2
    · exact absurd h1 hEne
    · exact h2

/-- Claim C3, witness for the amended theorem: one fixed asset X of value
50 and target 50 percent, alongside Y of value 50 and target 50 percent;
the returned equity is X's candidate 100. -/
theorem claim_C3_witness :
    (∀ p ∈ ([("X",50),("Y",50)] : Carteira), p.1 ∈ ["X"] →
      0 < valorDe [("X",50),("Y",50)] p.1) ∧
    (∃ p ∈ ([("X",50),("Y",50)] : Carteira), p.1 ∈ ["X"] ∧ 0 < p.2) ∧
    (∃ e, calcular_patrimonio_alvo_minimo [("X",50),("Y",50)] [("X",50),("Y",50)] ["X"]
        = some e ∧
      (∃ p ∈ ([("X",50),("Y",50)] : Carteira), p.1 ∈ ["X"] ∧
        e = cnd [("X",50),("Y",50)] p) ∧
      (∀ p ∈ ([("X",50),("Y",50)] : Carteira), p.1 ∈ ["X"] →
        cnd [("X",50),("Y",50)] p ≤ e)) := by
  refine ⟨?_, ?_, ?_⟩
  · simp [List.forall_mem_cons, valorDe]
  · exact ⟨("X",50), by simp, by simp, by norm_num⟩
  · exact claim_C3_amended [("X",50),("Y",50)] [("X",50),("Y",50)] ["X"]
      (by simp [List.forall_mem_cons, valorDe])
      ⟨("X",50), by simp, by simp, by norm_num⟩

/-- Claim C10.  For every portfolio whose current values sum to 0,
calcular_percentuais_atuais returns 0 for every asset and the fixed-asset
validator computes the fixed assets' combined current share as 0; neither
operation divides by the zero total. -/
theorem claim_C10 (ativos : Carteira) (fixos : List String)
    (hz : somaValores ativos = 0) :
    (∀ p ∈ calcular_percentuais_atuais ativos, p.2 = 0) ∧
    percentualAtualFixos ativos fixos = 0 := by
  have hng : ¬ somaValores ativos > 0 := by
    rw [hz]
    exact lt_irrefl 0
  constructor
  · intro p hp
    rw [calcular_percentuais_atuais, List.mem_map] at hp
    obtain ⟨q, hq, rfl⟩ := hp
    simp [hng]
  · rw [percentualAtualFixos, if_neg hng]

/-- Claim C10, witness at the all-zero two-asset portfolio with one fixed
asset. -/
theorem claim_C10_witness :
    somaValores [("A",0),("B",0)] = 0 ∧
    ((∀ p ∈ calcular_percentuais_atuais [("A",0),("B",0)], p.2 = 0) ∧
      percentualAtualFixos [("A",0),("B",0)] ["A"] = 0) := by
  refine ⟨by norm_num [somaValores], ?_⟩
  exact claim_C10 [("A",0),("B",0)] ["A"] (by norm_num [somaValores])

theorem valorDe_map_frac (alvo : Carteira) (e : ℚ) (k : String) :
    valorDe (alvo.map (fun q => (q.1, q.2 / 100 * e))) k = valorDe alvo k / 100 * e := by
  have h := valorDe_map_snd (fun x => x / 100 * e) (by norm_num) alvo k
  simpa using h

/-- Claim C2.  At the input current = A:10, B:10, C:50, targets A:1, B:50,
C:49, no cap and no fixed assets, the code returns target equity 1000 with
actions A:0, B:+490, C:+440 and required contribution 930 - far outside
the claimed (and repository-test-documented) values of about 102.04,
A:-8.98, B:+41.02, C:0 and 32.04. -/
theorem claim_C2_code_result :
    calcular_rebalanceamento_otimizado_silencioso
      [("A",10),("B",10),("C",50)] [("A",1),("B",50),("C",49)] none [] =
    Except.ok
      { viavel := true
        motivo := none
        patrimonio_atual := 70
        patrimonio_alvo := 1000
        aporte_necessario := 930
        acoes_por_ativo := [("A",0),("B",490),("C",440)]
        valores_finais := [("A",10),("B",500),("C",490)]
        percentuais_atuais := [("A",100/7),("B",100/7),("C",500/7)]
        percentuais_finais := [("A",1),("B",50),("C",49)]
        total_vendas := 0
        total_aportes_internos := 930 } ∧
    ¬ (|(1000 : ℚ) - 5000/49| ≤ 1/10) := by
  constructor
  · simp [calcular_rebalanceamento_otimizado_silencioso, validar_entradas, mesmasChaves,
      contemTodas, chaves, somaValores, valorDe, calcular_patrimonio_alvo_minimo, loopFixos,
      loopVariavel, cnd, calcular_valores_alvo_otimizado, percentuaisFinaisDe,
      resultadoViavel, aporteNecessarioDe, totalAportesInternos, totalVendasInternas,
      calcular_acoes, acaoDe, calcular_percentuais_atuais]
    norm_num [max_def]
  · rw [abs_of_nonneg (by norm_num : (0:ℚ) ≤ 1000 - 5000/49)]
    norm_num

/-- Claim C4.  A non-fixed asset with target percentage exactly 0 and
positive current value makes the optimizer divide by zero, so the whole
computation fails with ZeroDivisionError instead of skipping the asset; a
zero-valued asset with zero target is skipped and ends at final value 0. -/
theorem claim_C4_code_result :
    calcular_rebalanceamento_otimizado_silencioso
      [("A",50),("B",50)] [("A",100),("B",0)] none [] = Except.error Erro.divisaoPorZero ∧
    (∃ r, calcular_rebalanceamento_otimizado_silencioso
        [("A",100),("B",0)] [("A",100),("B",0)] none [] = Except.ok r ∧
      valorDe r.valores_finais ("B") = 0) := by
  constructor
  · simp [calcular_rebalanceamento_otimizado_silencioso, validar_entradas, mesmasChaves,
      contemTodas, chaves, somaValores, valorDe, calcular_patrimonio_alvo_minimo, loopFixos,
      loopVariavel, cnd, calcular_valores_alvo_otimizado, percentuaisFinaisDe,
      resultadoViavel, aporteNecessarioDe, totalAportesInternos, totalVendasInternas,
      calcular_acoes, acaoDe, calcular_percentuais_atuais]
  · refine ⟨{ viavel := true
              motivo := none
              patrimonio_atual := 100
              patrimonio_alvo := 100
              aporte_necessario := 0
              acoes_por_ativo := [("A",0),("B",0)]
              valores_finais := [("A",100),("B",0)]
              percentuais_atuais := [("A",100),("B",0)]
              percentuais_finais := [("A",100),("B",0)]
              total_vendas := 0
              total_aportes_internos := 0 }, ?_, by simp [valorDe]⟩
    simp [calcular_rebalanceamento_otimizado_silencioso, validar_entradas, mesmasChaves,
      contemTodas, chaves, somaValores, valorDe, calcular_patrimonio_alvo_minimo, loopFixos,
      loopVariavel, cnd, calcular_valores_alvo_otimizado, percentuaisFinaisDe,
      resultadoViavel, aporteNecessarioDe, totalAportesInternos, totalVendasInternas,
      calcular_acoes, acaoDe, calcular_percentuais_atuais]

/-- Claim C5, counterexample.  A valid input whose target percentages sum
to 99.995 (within the 0.01 validation tolerance) produces a viable plan
whose final values sum to about 99.995, while the target equity is about
100.01: the difference is about 0.005, far beyond the claimed 1e-6. -/
theorem claim_C5_counterexample :
    ∃ r, calcular_rebalanceamento_otimizado_silencioso
        [("A",50),("B",50)] [("A",50),("B",49995/1000)] none [] = Except.ok r ∧
      r.viavel = true ∧
      |somaValores r.valores_finais - r.patrimonio_alvo| > 1/1000000 := by
  refine ⟨{ viavel := true
            motivo := none
            patrimonio_atual := 100
            patrimonio_alvo := 1000000/9999
            aporte_necessario := 50/9999
            acoes_por_ativo := [("A",50/9999),("B",0)]
            valores_finais := [("A",500000/9999),("B",50)]
            percentuais_atuais := [("A",50),("B",50)]
            percentuais_finais := [("A",50),("B",9999/200)]
            total_vendas := 0
            total_aportes_internos := 50/9999 }, ?_, rfl, ?_⟩
  · simp [calcular_rebalanceamento_otimizado_silencioso, validar_entradas, mesmasChaves,
      contemTodas, chaves, somaValores, valorDe, calcular_patrimonio_alvo_minimo, loopFixos,
      loopVariavel, cnd, calcular_valores_alvo_otimizado, percentuaisFinaisDe,
      resultadoViavel, aporteNecessarioDe, totalAportesInternos, totalVendasInternas,
      calcular_acoes, acaoDe, calcular_percentuais_atuais, abs_of_nonneg]
    norm_num [max_def, abs_of_nonneg]
  · have h1 : somaValores ([("A",(500000:ℚ)/9999),("B",50)]) - 1000000/9999 = -(50/9999) := by
      simp [somaValores]
      norm_num
    show |somaValores ([("A",(500000:ℚ)/9999),("B",50)]) - 1000000/9999| > 1/1000000
    rw [h1, abs_neg, abs_of_nonneg (by norm_num : (0:ℚ) ≤ 50/9999)]
    norm_num

/-- Claim C5, amended.  For every plan computed with an empty fixed-asset
set, the final values sum to patrimonio_alvo times the target-percentage
sum divided by 100; in particular, the sum equals patrimonio_alvo exactly
when the percentages sum to exactly 100.  With a percentage sum merely
within the 0.01 validation tolerance, the claimed 1e-6 bound does not
hold. -/
theorem claim_C5_amended (ativos alvo : Carteira) (cap : Option ℚ) (r : Resultado)
    (h : calcular_rebalanceamento_otimizado_silencioso ativos alvo cap [] = Except.ok r) :
    somaValores r.valores_finais = r.patrimonio_alvo * somaValores alvo / 100 ∧
    (somaValores alvo = 100 → somaValores r.valores_finais = r.patrimonio_alvo) := by
  have hmain : somaValores r.valores_finais = r.patrimonio_alvo * somaValores alvo / 100 := by
    unfold calcular_rebalanceamento_otimizado_silencioso at h
    split at h
    · simp at h
    · split at h
      · next hcond => simp at hcond
      · split at h
        · simp at h
        · next e hE =>
          split at h
          · simp at h
          · next pf hpf =>
            have hfim : r.valores_finais = calcular_valores_alvo_otimizado ativos alvo [] e ∧
                r.patrimonio_alvo = e := by
              split at h
              · split at h
                · injection h with h2
                  rw [← h2]
                  exact ⟨rfl, rfl⟩
                · injection h with h2
                  rw [← h2]
                  exact ⟨rfl, rfl⟩
              · injection h with h2
                rw [← h2]
                exact ⟨rfl, rfl⟩
            rw [hfim.1, hfim.2, valores_alvo_sem_fixos, somaValores_map_frac]
            ring
  refine ⟨hmain, fun h100 => ?_⟩
  rw [hmain, h100]
  norm_num

/-- Claim C5, witness for the amended theorem at a concrete viable run. -/
theorem claim_C5_witness :
    ∃ r, calcular_rebalanceamento_otimizado_silencioso
        [("X",10),("Y",90)] [("X",10),("Y",90)] none [] = Except.ok r ∧
      somaValores r.valores_finais =
        r.patrimonio_alvo * somaValores ([("X",(10:ℚ)),("Y",90)]) / 100 := by
  have h : calcular_rebalanceamento_otimizado_silencioso
      [("X",10),("Y",90)] [("X",10),("Y",90)] none [] =
      Except.ok
        { viavel := true
          motivo := none
          patrimonio_atual := 100
          patrimonio_alvo := 100
          aporte_necessario := 0
          acoes_por_ativo := [("X",0),("Y",0)]
          valores_finais := [("X",10),("Y",90)]
          percentuais_atuais := [("X",10),("Y",90)]
          percentuais_finais := [("X",10),("Y",90)]
          total_vendas := 0
          total_aportes_internos := 0 } := by
    simp [calcular_rebalanceamento_otimizado_silencioso, validar_entradas, mesmasChaves,
      contemTodas, chaves, somaValores, valorDe, calcular_patrimonio_alvo_minimo, loopFixos,
      loopVariavel, cnd, calcular_valores_alvo_otimizado, percentuaisFinaisDe,
      resultadoViavel, aporteNecessarioDe, totalAportesInternos, totalVendasInternas,
      calcular_acoes, acaoDe, calcular_percentuais_atuais]
    norm_num [max_def]
  exact ⟨_, h, (claim_C5_amended _ _ _ _ h).1⟩

/-- Claim C6, counterexample.  For Scenario C (current ITSA4:2000,
PETR4:3000, VALE3:1000, targets 50/30/20, ITSA4 fixed) the computation
does not raise any exception: it returns an ordinary result value with
viavel = false and a fixed-asset mismatch reason (current share 100/3
versus target 50). -/
theorem claim_C6_counterexample :
    calcular_rebalanceamento_otimizado_silencioso
      [("ITSA4",2000),("PETR4",3000),("VALE3",1000)]
      [("ITSA4",50),("PETR4",30),("VALE3",20)] none ["ITSA4"] =
    Except.ok
      { viavel := false
        motivo := some (Motivo.fixosIncompativeis (MsgFixos.incompatFixos (100/3) 50))
        patrimonio_atual := 6000
        patrimonio_alvo := 0
        aporte_necessario := 0
        acoes_por_ativo := []
        valores_finais := []
        percentuais_atuais := []
        percentuais_finais := []
        total_vendas := 0
        total_aportes_internos := 0 } ∧
    (∀ err, calcular_rebalanceamento_otimizado_silencioso
      [("ITSA4",2000),("PETR4",3000),("VALE3",1000)]
      [("ITSA4",50),("PETR4",30),("VALE3",20)] none ["ITSA4"] ≠ Except.error err) := by
  have h1 : calcular_rebalanceamento_otimizado_silencioso
      [("ITSA4",2000),("PETR4",3000),("VALE3",1000)]
      [("ITSA4",50),("PETR4",30),("VALE3",20)] none ["ITSA4"] =
      Except.ok
        { viavel := false
          motivo := some (Motivo.fixosIncompativeis (MsgFixos.incompatFixos (100/3) 50))
          patrimonio_atual := 6000
          patrimonio_alvo := 0
          aporte_necessario := 0
          acoes_por_ativo := []
          valores_finais := []
          percentuais_atuais := []
          percentuais_finais := []
          total_vendas := 0
          total_aportes_internos := 0 } := by
    simp [calcular_rebalanceamento_otimizado_silencioso, validar_entradas, mesmasChaves,
      contemTodas, chaves, somaValores, valorDe, validar_ativos_fixos, checarExistencia,
      percentualAtualFixos, resultadoFixosInvalidos]
    norm_num [abs_of_nonneg]
  refine ⟨h1, fun err hc => ?_⟩
  rw [h1] at hc
  simp at hc

/-- Claim C6, amended.  Whenever the inputs pass validation, the fixed-asset
set is non-empty and the fixed-asset check fails, the silent optimized
rebalancing returns - before any optimization - an infeasible result value
carrying the mismatch reason, rather than raising an exception. -/
theorem claim_C6_amended (ativos alvo : Carteira) (fixos : List String) (cap : Option ℚ)
    (hval : validar_entradas ativos alvo = true) (hne : fixos ≠ [])
    (hbad : (validar_ativos_fixos ativos fixos alvo).1 = false) :
    calcular_rebalanceamento_otimizado_silencioso ativos alvo cap fixos =
      Except.ok (resultadoFixosInvalidos ativos fixos alvo) ∧
    (resultadoFixosInvalidos ativos fixos alvo).viavel = false ∧
    (∀ err, calcular_rebalanceamento_otimizado_silencioso ativos alvo cap fixos ≠
      Except.error err) := by
  have h1 : calcular_rebalanceamento_otimizado_silencioso ativos alvo cap fixos =
      Except.ok (resultadoFixosInvalidos ativos fixos alvo) := by
    unfold calcular_rebalanceamento_otimizado_silencioso
    rw [if_neg (by simp [hval]), if_pos ⟨hne, hbad⟩]
  refine ⟨h1, rfl, fun err hc => ?_⟩
  rw [h1] at hc
  simp at hc

/-- Claim C6, witness for the amended theorem at the Scenario C input with
a finite cap. -/
theorem claim_C6_witness :
    validar_entradas [("ITSA4",2000),("PETR4",3000),("VALE3",1000)]
      [("ITSA4",50),("PETR4",30),("VALE3",20)] = true ∧
    (["ITSA4"] : List String) ≠ [] ∧
    (validar_ativos_fixos [("ITSA4",2000),("PETR4",3000),("VALE3",1000)] ["ITSA4"]
      [("ITSA4",50),("PETR4",30),("VALE3",20)]).1 = false ∧
    (calcular_rebalanceamento_otimizado_silencioso
        [("ITSA4",2000),("PETR4",3000),("VALE3",1000)]
        [("ITSA4",50),("PETR4",30),("VALE3",20)] (some 100) ["ITSA4"] =
      Except.ok (resultadoFixosInvalidos [("ITSA4",2000),("PETR4",3000),("VALE3",1000)]
        ["ITSA4"] [("ITSA4",50),("PETR4",30),("VALE3",20)]) ∧
      (resultadoFixosInvalidos [("ITSA4",2000),("PETR4",3000),("VALE3",1000)]
        ["ITSA4"] [("ITSA4",50),("PETR4",30),("VALE3",20)]).viavel = false ∧
      (∀ err, calcular_rebalanceamento_otimizado_silencioso
        [("ITSA4",2000),("PETR4",3000),("VALE3",1000)]
        [("ITSA4",50),("PETR4",30),("VALE3",20)] (some 100) ["ITSA4"] ≠
        Except.error err)) := by
  have hval : validar_entradas [("ITSA4",2000),("PETR4",3000),("VALE3",1000)]
      [("ITSA4",50),("PETR4",30),("VALE3",20)] = true := by
    simp [validar_entradas, mesmasChaves, contemTodas, chaves, somaValores]
    norm_num
  have hbad : (validar_ativos_fixos [("ITSA4",2000),("PETR4",3000),("VALE3",1000)] ["ITSA4"]
      [("ITSA4",50),("PETR4",30),("VALE3",20)]).1 = false := by
    simp [validar_ativos_fixos, checarExistencia, chaves, percentualAtualFixos, valorDe,
      somaValores]
    norm_num [abs_of_nonneg]
  exact ⟨hval, by simp, hbad,
    claim_C6_amended [("ITSA4",2000),("PETR4",3000),("VALE3",1000)]
      [("ITSA4",50),("PETR4",30),("VALE3",20)] ["ITSA4"] (some 100) hval (by simp) hbad⟩

/-- Claim C7.  Whenever the computation reaches the feasibility check with
target equity e and a finite cap c smaller than the required net
contribution, the returned plan is an ordinary value with viavel = false,
a reason carrying both the required contribution and the cap, and all
computed fields (target equity, actions, final values, current and final
percentages, totals) still populated. -/
theorem claim_C7 (ativos alvo : Carteira) (fixos : List String) (e c : ℚ)
    (hval : validar_entradas ativos alvo = true)
    (hfx : (validar_ativos_fixos ativos fixos alvo).1 = true)
    (hE : calcular_patrimonio_alvo_minimo ativos alvo fixos = some e)
    (hEne : ¬ e = 0)
    (hgt : aporteNecessarioDe ativos alvo fixos e > c) :
    ∃ r, calcular_rebalanceamento_otimizado_silencioso ativos alvo (some c) fixos =
        Except.ok r ∧
      r.viavel = false ∧
      r.motivo = some (Motivo.aporteExcede (aporteNecessarioDe ativos alvo fixos e) c) ∧
      r.patrimonio_alvo = e ∧
      r.aporte_necessario = aporteNecessarioDe ativos alvo fixos e ∧
      r.acoes_por_ativo =
        calcular_acoes ativos (calcular_valores_alvo_otimizado ativos alvo fixos e) fixos ∧
      r.valores_finais = calcular_valores_alvo_otimizado ativos alvo fixos e ∧
      r.percentuais_atuais = calcular_percentuais_atuais ativos ∧
      r.percentuais_finais = percentuaisFinaisCalculados ativos alvo fixos e ∧
      r.total_vendas = totalVendasInternas ativos
        (calcular_valores_alvo_otimizado ativos alvo fixos e) fixos ∧
      r.total_aportes_internos = totalAportesInternos ativos
        (calcular_valores_alvo_otimizado ativos alvo fixos e) fixos := by
  have hfix : ¬ (fixos ≠ [] ∧ (validar_ativos_fixos ativos fixos alvo).1 = false) := by
    rintro ⟨_, hf⟩
    rw [hfx] at hf
    cases hf
  have hred := silencioso_reduz ativos alvo (some c) fixos e hval hfix hE hEne
  refine ⟨resultadoInviavel ativos alvo fixos e
    (percentuaisFinaisCalculados ativos alvo fixos e) c, ?_,
    rfl, rfl, rfl, rfl, rfl, rfl, rfl, rfl, rfl, rfl⟩
  rw [hred]
  exact if_pos hgt

/-- Claim C7, witness at the Scenario D input: current Ações 1000 and
RendaFixa 4000, targets 80/20, cap 500; the required contribution is 15000. -/
theorem claim_C7_witness :
    validar_entradas [("Ações",1000),("RendaFixa",4000)] [("Ações",80),("RendaFixa",20)]
      = true ∧
    (validar_ativos_fixos [("Ações",1000),("RendaFixa",4000)] []
      [("Ações",80),("RendaFixa",20)]).1 = true ∧
    calcular_patrimonio_alvo_minimo [("Ações",1000),("RendaFixa",4000)]
      [("Ações",80),("RendaFixa",20)] [] = some 20000 ∧
    aporteNecessarioDe [("Ações",1000),("RendaFixa",4000)] [("Ações",80),("RendaFixa",20)]
      [] 20000 > 500 ∧
    (∃ r, calcular_rebalanceamento_otimizado_silencioso
        [("Ações",1000),("RendaFixa",4000)] [("Ações",80),("RendaFixa",20)]
        (some 500) [] = Except.ok r ∧
      r.viavel = false ∧
      r.motivo = some (Motivo.aporteExcede (aporteNecessarioDe
        [("Ações",1000),("RendaFixa",4000)] [("Ações",80),("RendaFixa",20)] [] 20000) 500) ∧
      r.patrimonio_alvo = 20000 ∧
      r.aporte_necessario = aporteNecessarioDe [("Ações",1000),("RendaFixa",4000)]
        [("Ações",80),("RendaFixa",20)] [] 20000 ∧
      r.acoes_por_ativo = calcular_acoes [("Ações",1000),("RendaFixa",4000)]
        (calcular_valores_alvo_otimizado [("Ações",1000),("RendaFixa",4000)]
          [("Ações",80),("RendaFixa",20)] [] 20000) [] ∧
      r.valores_finais = calcular_valores_alvo_otimizado [("Ações",1000),("RendaFixa",4000)]
        [("Ações",80),("RendaFixa",20)] [] 20000 ∧
      r.percentuais_atuais = calcular_percentuais_atuais [("Ações",1000),("RendaFixa",4000)] ∧
      r.percentuais_finais = percentuaisFinaisCalculados [("Ações",1000),("RendaFixa",4000)]
        [("Ações",80),("RendaFixa",20)] [] 20000 ∧
      r.total_vendas = totalVendasInternas [("Ações",1000),("RendaFixa",4000)]
        (calcular_valores_alvo_otimizado [("Ações",1000),("RendaFixa",4000)]
          [("Ações",80),("RendaFixa",20)] [] 20000) [] ∧
      r.total_aportes_internos = totalAportesInternos [("Ações",1000),("RendaFixa",4000)]
        (calcular_valores_alvo_otimizado [("Ações",1000),("RendaFixa",4000)]
          [("Ações",80),("RendaFixa",20)] [] 20000) []) := by
  have hval : validar_entradas [("Ações",1000),("RendaFixa",4000)]
      [("Ações",80),("RendaFixa",20)] = true := by
    simp [validar_entradas, mesmasChaves, contemTodas, chaves, somaValores]
    norm_num
  have hfx : (validar_ativos_fixos [("Ações",1000),("RendaFixa",4000)] []
      [("Ações",80),("RendaFixa",20)]).1 = true := by
    simp [validar_ativos_fixos]
  have hE : calcular_patrimonio_alvo_minimo [("Ações",1000),("RendaFixa",4000)]
      [("Ações",80),("RendaFixa",20)] [] = some 20000 := by
    simp [calcular_patrimonio_alvo_minimo, loopFixos, loopVariavel, cnd, valorDe, somaValores]
    norm_num [max_def]
  have hgt : aporteNecessarioDe [("Ações",1000),("RendaFixa",4000)]
      [("Ações",80),("RendaFixa",20)] [] 20000 > 500 := by
    simp [aporteNecessarioDe, totalAportesInternos, totalVendasInternas, acaoDe,
      calcular_valores_alvo_otimizado, valorDe]
    norm_num [max_def]
  exact ⟨hval, hfx, hE, hgt,
    claim_C7 [("Ações",1000),("RendaFixa",4000)] [("Ações",80),("RendaFixa",20)] [] 20000 500
      hval hfx hE (by norm_num) hgt⟩

/-- Claim C8.  validar_entradas rejects its input exactly when one of the
mappings is empty, their key sets differ, or the target percentages miss
100 by more than 0.01; the rejection surfaces as the validation error of
the silent rebalancing before any other computation, and a validated input
never produces that error. -/
theorem claim_C8 (ativos alvo : Carteira) :
    (validar_entradas ativos alvo = false ↔
      ativos = [] ∨ alvo = [] ∨ ¬ (chaves ativos).toFinset = (chaves alvo).toFinset ∨
        |somaValores alvo - 100| > 1/100) ∧
    (∀ cap fixos, validar_entradas ativos alvo = false →
      calcular_rebalanceamento_otimizado_silencioso ativos alvo cap fixos =
        Except.error Erro.validacao) ∧
    (∀ cap fixos, validar_entradas ativos alvo = true →
      calcular_rebalanceamento_otimizado_silencioso ativos alvo cap fixos ≠
        Except.error Erro.validacao) := by
  have hmk := mesmasChaves_iff ativos alvo
  refine ⟨?_, ?_, ?_⟩
  · unfold validar_entradas
    split_ifs with h1 h2 h3
    · exact iff_of_true rfl (by rcases h1 with h | h; exacts [Or.inl h, Or.inr (Or.inl h)])
    · refine iff_of_true rfl (Or.inr (Or.inr (Or.inl ?_)))
      intro hfin
      rw [hmk.mpr hfin] at h2
      cases h2
    · exact iff_of_true rfl (Or.inr (Or.inr (Or.inr h3)))
    · refine iff_of_false (by simp) ?_
      rintro (h | h | h | h)
      · exact h1 (Or.inl h)
      · exact h1 (Or.inr h)
      · refine h (hmk.mp ?_)
        cases hcase : mesmasChaves ativos alvo
        · exact absurd hcase h2
        · rfl
      · exact h3 h
  · intro cap fixos hv
    unfold calcular_rebalanceamento_otimizado_silencioso
    rw [if_pos hv]
  · intro cap fixos hv hc
    unfold calcular_rebalanceamento_otimizado_silencioso at hc
    rw [if_neg (by simp [hv])] at hc
    split at hc
    · simp at hc
    · split at hc
      · simp at hc
      · split at hc
        · simp at hc
        · split at hc
          · split at hc <;> simp at hc
          · simp at hc

/-- Claim C8, witness: the empty current mapping is rejected and the silent
rebalancing surfaces exactly the validation error. -/
theorem claim_C8_witness :
    validar_entradas [] [("A",100)] = false ∧
    calcular_rebalanceamento_otimizado_silencioso [] [("A",100)] none [] =
      Except.error Erro.validacao := by
  have hv : validar_entradas [] [("A",100)] = false := by
    simp [validar_entradas]
  exact ⟨hv, (claim_C8 [] [("A",100)]).2.1 none [] hv⟩

/-- Claim C9.  For every valid no-fixed-assets input whose current values
already realize the target percentages exactly, the silent rebalancing
returns a plan with target equity equal to the current total, every action
equal to 0 and required net contribution 0 - for any contribution cap. -/
theorem claim_C9 (ativos alvo : Carteira) (cap : Option ℚ)
    (hpos : 0 < somaValores ativos)
    (hk : mesmasChaves ativos alvo = true)
    (hsum : |somaValores alvo - 100| ≤ 1/100)
    (hpw : ∀ p ∈ ativos, p.2 = valorDe alvo p.1 / 100 * somaValores ativos) :
    ∃ r, calcular_rebalanceamento_otimizado_silencioso ativos alvo cap [] = Except.ok r ∧
      r.patrimonio_alvo = somaValores ativos ∧
      r.aporte_necessario = 0 ∧
      (∀ p ∈ r.acoes_por_ativo, p.2 = 0) := by
  have hane : ¬ ativos = [] := by
    intro h
    rw [h] at hpos
    simp [somaValores] at hpos
  have halvone : ¬ alvo = [] := by
    intro h
    rcases hativos : ativos with _ | ⟨p, resto⟩
    · rw [hativos] at hane
      exact hane rfl
    · rw [hativos] at hk
      rw [mesmasChaves, Bool.and_eq_true] at hk
      have h5 := (contemTodas_iff (chaves (p :: resto)) alvo).mp hk.1
      have hmem : p.1 ∈ chaves alvo := h5 p.1 (by simp [chaves])
      rw [h] at hmem
      simp [chaves] at hmem
  have hval : validar_entradas ativos alvo = true :=
    validar_entradas_eq_true ativos alvo hane halvone hk (not_lt.mpr hsum)
  have htne : ¬ somaValores ativos = 0 := ne_of_gt hpos
  have hpam : calcular_patrimonio_alvo_minimo ativos alvo [] = some (somaValores ativos) := by
    unfold calcular_patrimonio_alvo_minimo
    simp only [loopFixos_sem_fixos, eq_self_iff_true, if_true]
    exact loopVariavel_equilibrio alvo ativos (somaValores ativos) hpos hpw
  have hred := silencioso_reduz ativos alvo cap [] (somaValores ativos) hval (by simp) hpam htne
  have hac : ∀ p ∈ ativos,
      acaoDe (calcular_valores_alvo_otimizado ativos alvo [] (somaValores ativos)) [] p
        = 0 := by
    intro p hp
    rw [acaoDe, if_neg (List.not_mem_nil p.1), valores_alvo_sem_fixos, valorDe_map_frac,
      ← hpw p hp, sub_self]
  have h0 := totais_zero ativos
    (calcular_valores_alvo_otimizado ativos alvo [] (somaValores ativos)) [] hac
  have haporte : aporteNecessarioDe ativos alvo [] (somaValores ativos) = 0 := by
    unfold aporteNecessarioDe
    rw [h0.1, h0.2]
    ring
  have hacl : ∀ p ∈ calcular_acoes ativos
      (calcular_valores_alvo_otimizado ativos alvo [] (somaValores ativos)) [], p.2 = 0 := by
    intro p hp
    rw [calcular_acoes, List.mem_map] at hp
    obtain ⟨q, hq, rfl⟩ := hp
    exact hac q hq
  rcases cap with _ | c
  · refine ⟨resultadoViavel ativos alvo [] (somaValores ativos)
      (percentuaisFinaisCalculados ativos alvo [] (somaValores ativos)), ?_, rfl, ?_, hacl⟩
    · rw [hred]
    · show max 0 (aporteNecessarioDe ativos alvo [] (somaValores ativos)) = 0
      rw [haporte]
      norm_num
  · by_cases hc : aporteNecessarioDe ativos alvo [] (somaValores ativos) > c
    · refine ⟨resultadoInviavel ativos alvo [] (somaValores ativos)
        (percentuaisFinaisCalculados ativos alvo [] (somaValores ativos)) c, ?_, rfl,
        haporte, hacl⟩
      rw [hred]
      exact if_pos hc
    · refine ⟨resultadoViavel ativos alvo [] (somaValores ativos)
        (percentuaisFinaisCalculados ativos alvo [] (somaValores ativos)), ?_, rfl, ?_, hacl⟩
      · rw [hred]
        exact if_neg hc
      · show max 0 (aporteNecessarioDe ativos alvo [] (somaValores ativos)) = 0
        rw [haporte]
        norm_num

/-- Claim C9, witness at the Scenario B input: current A:30, B:70 with
identical targets yields target equity 100 and all actions 0. -/
theorem claim_C9_witness :
    0 < somaValores [("A",30),("B",70)] ∧
    mesmasChaves [("A",30),("B",70)] [("A",30),("B",70)] = true ∧
    |somaValores [("A",30),("B",70)] - 100| ≤ 1/100 ∧
    (∀ p ∈ ([("A",30),("B",70)] : Carteira),
      p.2 = valorDe [("A",30),("B",70)] p.1 / 100 * somaValores [("A",30),("B",70)]) ∧
    (∃ r, calcular_rebalanceamento_otimizado_silencioso
        [("A",30),("B",70)] [("A",30),("B",70)] none [] = Except.ok r ∧
      r.patrimonio_alvo = somaValores [("A",30),("B",70)] ∧
      r.aporte_necessario = 0 ∧
      (∀ p ∈ r.acoes_por_ativo, p.2 = 0)) := by
  have h1 : 0 < somaValores [("A",(30:ℚ)),("B",70)] := by norm_num [somaValores]
  have h2 : mesmasChaves [("A",(30:ℚ)),("B",70)] [("A",30),("B",70)] = true := by
    simp [mesmasChaves, contemTodas, chaves]
  have h3 : |somaValores [("A",(30:ℚ)),("B",70)] - 100| ≤ 1/100 := by
    norm_num [somaValores]
  have h4 : ∀ p ∈ ([("A",30),("B",70)] : Carteira),
      p.2 = valorDe [("A",30),("B",70)] p.1 / 100 * somaValores [("A",30),("B",70)] := by
    simp [List.forall_mem_cons, valorDe, somaValores] <;> norm_num
  exact ⟨h1, h2, h3, h4, claim_C9 [("A",30),("B",70)] [("A",30),("B",70)] none h1 h2 h3 h4⟩
